import Mathlib

set_option linter.unusedVariables false

/-!
Verification of the session-lifecycle and evidence-capture layer of the
Playwright MCP automation server (src/server.ts, src/tools/browserLifecycle.ts,
src/tools/interactions.ts, src/tools/assertions.ts, src/tools/waitsAndInfo.ts).

The TypeScript code is shallowly embedded: the mutable module-level `state`
record becomes an explicit `PlaywrightState` value threaded through the
operations; external engine calls (playwright launch, tracing, page actions,
screenshots) are fallible collaborators, so each operation takes an
environment record describing the collaborator outcomes (success value or
thrown error message) and the try/catch control flow of the source is
translated to matches on those `Except`/`Option` outcomes.
-/

namespace PwServer

/-- External browser-engine handle. `connected` models the dynamic
`browser.isConnected()` query (treated as stable within one invocation). -/
structure Browser where
  id : Nat
  connected : Bool
deriving DecidableEq, Repr

/-- External browser-context handle (carries video/trace recording bindings). -/
structure BrowserContext where
  id : Nat
deriving DecidableEq, Repr

/-- External page handle. -/
structure Page where
  id : Nat
deriving DecidableEq, Repr

/-- The shared mutable state of src/server.ts (interface PlaywrightState). -/
structure PlaywrightState where
  browser : Option Browser
  context : Option BrowserContext
  page : Option Page
  tracePath : Option String
  videoPath : Option String
deriving DecidableEq, Repr

/-- The initial (and post-reset) state: every field null. -/
def emptyState : PlaywrightState :=
  { browser := none, context := none, page := none, tracePath := none, videoPath := none }

/-- The uniform result envelope all tools return: a single text content block
plus the optional isError flag (absent flag modelled as false). -/
structure ToolResult where
  text : String
  isError : Bool
deriving DecidableEq, Repr

/-- `state.browser?.isConnected()` with optional chaining: undefined (hence
falsy) when browser is null. -/
def browserConnected (s : PlaywrightState) : Bool :=
  match s.browser with
  | some b => b.connected
  | none => false

/-! ## ArtifactPathAllocator: generateFilePath (src/server.ts) -/

/-- Character class of the sanitizing regex `/[^a-z0-9_.\-]/gi`: letters
(either case, from the i flag), digits, underscore, period, hyphen. -/
def isSafeChar (c : Char) : Bool :=
  (decide ('a' ≤ c) && decide (c ≤ 'z')) ||
  (decide ('A' ≤ c) && decide (c ≤ 'Z')) ||
  (decide ('0' ≤ c) && decide (c ≤ '9')) ||
  c == '_' || c == '.' || c == '-'

/-- `actualBaseName.replace(/[^a-z0-9_.\-]/gi, '_')`. -/
def replaceUnsafeChars (s : String) : String :=
  String.mk (s.data.map fun c => if isSafeChar c then c else '_')

/-- `new Date().toISOString().replace(/[:.]/g, '-')`, applied to the ISO
timestamp string supplied by the clock. -/
def replaceTimestampChars (s : String) : String :=
  String.mk (s.data.map fun c => if c == ':' || c == '.' then '-' else c)

/-- `path.join(dir, fileName)` for a directory and a plain file name. -/
def pathJoin (dir fileName : String) : String :=
  dir ++ "/" ++ fileName

/-- `const actualBaseName = baseName || prefix-timestamp`: JS `||` treats the
empty string as falsy, so an empty caller-supplied base also falls back. -/
def actualBaseNameOf (baseName : Option String) (pfx nowIso : String) : String :=
  let timestamp := replaceTimestampChars nowIso
  match baseName with
  | some b => if b == "" then pfx ++ "-" ++ timestamp else b
  | none => pfx ++ "-" ++ timestamp

/-- The `sanitizedBaseName` local of generateFilePath. -/
def sanitizedBaseNameOf (baseName : Option String) (pfx nowIso : String) : String :=
  replaceUnsafeChars (actualBaseNameOf baseName pfx nowIso)

/-- generateFilePath (src/server.ts): the clock reading `nowIso` is passed
explicitly in place of `new Date().toISOString()`. -/
def generateFilePath (dir : String) (baseName : Option String) (extension pfx nowIso : String) :
    String :=
  pathJoin dir (sanitizedBaseNameOf baseName pfx nowIso ++ "." ++ extension)

/-- Every character the sanitizer emits is in the approved class. -/
theorem isSafeChar_of_replace (a : Char) :
    isSafeChar (if isSafeChar a then a else '_') = true := by
  by_cases h : isSafeChar a
  · simp [h]
  · simp [h]; rfl

/-- The sanitized base name contains only approved characters. -/
theorem sanitizedBaseNameOf_all_safe (baseName : Option String) (pfx nowIso : String) :
    (sanitizedBaseNameOf baseName pfx nowIso).data.all isSafeChar = true := by
  unfold sanitizedBaseNameOf replaceUnsafeChars
  rw [List.all_eq_true]
  intro c hc
  rw [show (String.mk ((actualBaseNameOf baseName pfx nowIso).data.map
      fun c => if isSafeChar c then c else '_')).data
      = (actualBaseNameOf baseName pfx nowIso).data.map
      (fun c => if isSafeChar c then c else '_') from rfl] at hc
  obtain ⟨a, _, rfl⟩ := List.mem_map.mp hc
  exact isSafeChar_of_replace a

/-! ## EvidenceCapture: takeScreenshotOnError (src/server.ts) -/

/-- Artifact directory constants (absolute-prefix resolution from the process
working directory is environment-dependent and irrelevant to the claims). -/
def SCREENSHOT_DIR : String := "screenshots"

def TRACE_DIR : String := "traces"

def VIDEO_DIR : String := "videos"

/-- Collaborator outcomes visible to takeScreenshotOnError: the clock reading
for generateFilePath, and whether `page.screenshot` throws (with the thrown
message). -/
structure ShotEnv where
  nowIso : String
  screenshotError : Option String
deriving DecidableEq, Repr

/-- Character class of the detail-sanitizing regex `/[^a-z0-9_\-]/gi` (no
period, unlike the path allocator's class). -/
def isDetailChar (c : Char) : Bool :=
  (decide ('a' ≤ c) && decide (c ≤ 'z')) ||
  (decide ('A' ≤ c) && decide (c ≤ 'Z')) ||
  (decide ('0' ≤ c) && decide (c ≤ '9')) ||
  c == '_' || c == '-'

/-- `details.replace(/[^a-z0-9_\-]/gi, '_').substring(0, 50)`. -/
def sanitizeDetail (d : String) : String :=
  String.mk ((d.data.map fun c => if isDetailChar c then c else '_').take 50)

/-- `details ? details.replace(...).substring(0, 50) : 'details'`: a null,
undefined or empty detail string (all falsy) falls back to "details". -/
def detailPartOf (details : Option String) : String :=
  match details with
  | some d => if d == "" then "details" else sanitizeDetail d
  | none => "details"

/-- takeScreenshotOnError (src/server.ts), with the thrown-or-not behaviour
made explicit in the result type: `.ok v` models a normal return of `v`
(null or the file path), `.error` would model an exception escaping to the
caller. The body's try/catch appears as the match on `env.screenshotError`;
the guard's early `return null` is the first branch. -/
def takeScreenshotOnErrorE (env : ShotEnv) (s : PlaywrightState)
    (errorType : String) (details : Option String) : Except String (Option String) :=
  if s.page.isNone || !browserConnected s then
    .ok none
  else
    let fileNameBase := "error-" ++ errorType ++ "-" ++ detailPartOf details
    let filePath := generateFilePath SCREENSHOT_DIR (some fileNameBase) "png"
      "error-screenshot" env.nowIso
    match env.screenshotError with
    | some _ => .ok none
    | none => .ok (some filePath)

/-- The value takeScreenshotOnError hands back to the tool that invoked it. -/
def takeScreenshotOnError (env : ShotEnv) (s : PlaywrightState)
    (errorType : String) (details : Option String) : Option String :=
  match takeScreenshotOnErrorE env s errorType details with
  | .ok v => v
  | .error _ => none

/-! ## ActionGuard: checkPageAvailable (src/tools/interactions.ts, copies in
assertions.ts and waitsAndInfo.ts) -/

/-- The uniform guard-failure envelope returned by checkPageAvailable. -/
def noPageEnvelope : ToolResult :=
  { text := "Error: No active page or browser disconnected. Use launchBrowser first.",
    isError := true }

/-- checkPageAvailable: `!state.page || !state.browser?.isConnected()`. -/
def checkPageAvailable (s : PlaywrightState) : Option ToolResult :=
  if s.page.isNone || !browserConnected s then some noPageEnvelope else none

/-- The guard passes exactly when the page exists and the engine reports
itself connected. -/
theorem checkPageAvailable_eq_none_iff (s : PlaywrightState) :
    checkPageAvailable s = none ↔ (s.page.isSome = true ∧ browserConnected s = true) := by
  unfold checkPageAvailable
  cases hp : s.page <;> cases hb : browserConnected s <;>
    simp [hp, hb, Option.isNone, Option.isSome]

/-- When the page is null or the engine is disconnected the guard returns the
uniform failure envelope. -/
theorem checkPageAvailable_fails (s : PlaywrightState)
    (h : s.page = none ∨ browserConnected s = false) :
    checkPageAvailable s = some noPageEnvelope := by
  unfold checkPageAvailable
  rcases h with h | h <;> simp [h]

/-! ## CommandDispatcher: the delegated action tools

Each tool callback is a function of the session state and an environment
record giving the outcomes of the external engine calls it awaits. The
callbacks never assign to the session fields, so they return no new state;
`attemptedAction` records whether the delegated engine action was reached,
and `captureCall` records the (errorType, details) arguments of the
takeScreenshotOnError invocation, if any. -/

/-- `error.message?.includes(pat)`. -/
def strContains (s pat : String) : Bool :=
  s.data.tails.any fun t => pat.data.isPrefixOf t

/-- Outcomes of the external calls a delegated-action tool performs. -/
structure ActionEnv where
  actionError : Option String
  textValue : Option String
  strValue : String
  statusValue : Option Nat
  shot : ShotEnv
deriving DecidableEq, Repr

/-- What one tool invocation did: its envelope, whether the engine action was
delegated, and the arguments of the evidence-capture call if one was made. -/
structure CommandTrace where
  result : ToolResult
  attemptedAction : Bool
  captureCall : Option (String × Option String)
deriving DecidableEq, Repr

/-- Build the single-text-block envelope `\x7b content: [\x7btype, text\x7d], isError \x7d`. -/
def mkResult (text : String) (isError : Bool) : ToolResult :=
  { text := text, isError := isError }

/-- `if (screenshotPath) finalMessage += ...`. -/
def shotSuffix (p : Option String) : String :=
  match p with
  | some path => " Screenshot saved to: " ++ path
  | none => ""

/-- Tool: click (src/tools/interactions.ts). -/
def click (env : ActionEnv) (s : PlaywrightState) (selector : String) : CommandTrace :=
  match checkPageAvailable s with
  | some err => { result := err, attemptedAction := false, captureCall := none }
  | none =>
    match env.actionError with
    | none =>
      { result := mkResult ("Successfully clicked element: " ++ selector) false,
        attemptedAction := true, captureCall := none }
    | some msg =>
      let screenshotPath := takeScreenshotOnError env.shot s "click-error" (some selector)
      let errorMessage :=
        if strContains msg "Timeout" then "Timeout waiting for element: " ++ selector
        else if strContains msg "selector resolved to hidden" then
          "Element '" ++ selector ++ "' found but hidden."
        else msg
      { result := mkResult ("Error clicking element '" ++ selector ++ "': " ++ errorMessage
            ++ shotSuffix screenshotPath) true,
        attemptedAction := true, captureCall := some ("click-error", some selector) }

/-- Tool: fill (src/tools/interactions.ts). -/
def fill (env : ActionEnv) (s : PlaywrightState) (selector text : String) : CommandTrace :=
  match checkPageAvailable s with
  | some err => { result := err, attemptedAction := false, captureCall := none }
  | none =>
    match env.actionError with
    | none =>
      { result := mkResult ("Successfully filled element '" ++ selector ++ "'.") false,
        attemptedAction := true, captureCall := none }
    | some msg =>
      let screenshotPath := takeScreenshotOnError env.shot s "fill-error" (some selector)
      let errorMessage :=
        if strContains msg "Timeout" then "Timeout waiting for element: " ++ selector
        else if strContains msg "Element is not an input" then
          "Element '" ++ selector ++ "' is not an input field."
        else msg
      { result := mkResult ("Error filling element '" ++ selector ++ "': " ++ errorMessage
            ++ shotSuffix screenshotPath) true,
        attemptedAction := true, captureCall := some ("fill-error", some selector) }

/-- Tool: getElementText (src/tools/interactions.ts); `env.textValue` is the
engine's textContent result (null coalesced to the empty string). -/
def getElementText (env : ActionEnv) (s : PlaywrightState) (selector : String) : CommandTrace :=
  match checkPageAvailable s with
  | some err => { result := err, attemptedAction := false, captureCall := none }
  | none =>
    match env.actionError with
    | none =>
      { result := mkResult (env.textValue.getD "") false,
        attemptedAction := true, captureCall := none }
    | some msg =>
      let screenshotPath := takeScreenshotOnError env.shot s "getText-error" (some selector)
      let errorMessage :=
        if strContains msg "Timeout" then "Timeout waiting for element: " ++ selector
        else msg
      { result := mkResult ("Error getting text for element '" ++ selector ++ "': "
            ++ errorMessage ++ shotSuffix screenshotPath) true,
        attemptedAction := true, captureCall := some ("getText-error", some selector) }

/-- Tool: hover (src/tools/interactions.ts). -/
def hover (env : ActionEnv) (s : PlaywrightState) (selector : String) : CommandTrace :=
  match checkPageAvailable s with
  | some err => { result := err, attemptedAction := false, captureCall := none }
  | none =>
    match env.actionError with
    | none =>
      { result := mkResult ("Successfully hovered over element: " ++ selector) false,
        attemptedAction := true, captureCall := none }
    | some msg =>
      let screenshotPath := takeScreenshotOnError env.shot s "hover-error" (some selector)
      let errorMessage :=
        if strContains msg "Timeout" then "Timeout waiting for element: " ++ selector
        else msg
      { result := mkResult ("Error hovering over element '" ++ selector ++ "': "
            ++ errorMessage ++ shotSuffix screenshotPath) true,
        attemptedAction := true, captureCall := some ("hover-error", some selector) }

/-- Tool: pressKey (src/tools/interactions.ts); the selector is optional. -/
def pressKey (env : ActionEnv) (s : PlaywrightState) (key : String)
    (selector : Option String) : CommandTrace :=
  match checkPageAvailable s with
  | some err => { result := err, attemptedAction := false, captureCall := none }
  | none =>
    let onPart :=
      match selector with
      | some sel => " on element '" ++ sel ++ "'"
      | none => ""
    let onPartShort :=
      match selector with
      | some sel => " on '" ++ sel ++ "'"
      | none => ""
    match env.actionError with
    | none =>
      { result := mkResult ("Successfully pressed key '" ++ key ++ "'" ++ onPart ++ ".") false,
        attemptedAction := true, captureCall := none }
    | some msg =>
      let screenshotPath := takeScreenshotOnError env.shot s "pressKey-error"
        (some (selector.getD "page"))
      let errorMessage :=
        if strContains msg "Timeout" && selector.isSome then
          "Timeout waiting for element: " ++ selector.getD ""
        else msg
      { result := mkResult ("Error pressing key '" ++ key ++ "'" ++ onPartShort ++ ": "
            ++ errorMessage ++ shotSuffix screenshotPath) true,
        attemptedAction := true, captureCall := some ("pressKey-error", some (selector.getD "page")) }

/-- The selectOption argument union: by value, by label, or by index. -/
inductive SelectOpt where
  | byValue (v : String)
  | byLabel (l : String)
  | byIndex (i : Int)
deriving DecidableEq, Repr

/-- Tool: selectOption (src/tools/interactions.ts). -/
def selectOption (env : ActionEnv) (s : PlaywrightState) (selector : String)
    (option : SelectOpt) : CommandTrace :=
  match checkPageAvailable s with
  | some err => { result := err, attemptedAction := false, captureCall := none }
  | none =>
    match env.actionError with
    | none =>
      { result := mkResult ("Successfully selected option in '" ++ selector ++ "'.") false,
        attemptedAction := true, captureCall := none }
    | some msg =>
      let screenshotPath := takeScreenshotOnError env.shot s "selectOption-error" (some selector)
      let errorMessage :=
        if strContains msg "Timeout" then
          "Timeout waiting for element or option: " ++ selector
        else msg
      { result := mkResult ("Error selecting option in '" ++ selector ++ "': "
            ++ errorMessage ++ shotSuffix screenshotPath) true,
        attemptedAction := true, captureCall := some ("selectOption-error", some selector) }

/-- Tool: goto (src/tools/browserLifecycle.ts). Its inline guard uses its own
message text, and its catch block performs no evidence capture. -/
def goto (env : ActionEnv) (s : PlaywrightState) (url : String) : CommandTrace :=
  if s.page.isNone || !browserConnected s then
    { result := mkResult ("Error: No active page or browser. Use launchBrowser first.") true,
      attemptedAction := false, captureCall := none }
  else
    match env.actionError with
    | none =>
      let statusText :=
        match env.statusValue with
        | some n => toString n
        | none => "unknown"
      { result := mkResult ("Successfully navigated to " ++ url ++ ". Page status: "
            ++ statusText ++ ".") false,
        attemptedAction := true, captureCall := none }
    | some msg =>
      { result := mkResult ("Error navigating to " ++ url ++ ": " ++ msg) true,
        attemptedAction := true, captureCall := none }

/-- The waitForSelector state argument. -/
inductive WaitState where
  | attached
  | detached
  | visible
  | hidden
deriving DecidableEq, Repr

/-- The string form of a WaitState as it appears in messages. -/
def WaitState.name : WaitState → String
  | .attached => "attached"
  | .detached => "detached"
  | .visible => "visible"
  | .hidden => "hidden"

/-- Tool: waitForSelector (src/tools/waitsAndInfo.ts). -/
def waitForSelector (env : ActionEnv) (s : PlaywrightState) (selector : String)
    (desiredState : WaitState) (timeout : Nat) : CommandTrace :=
  match checkPageAvailable s with
  | some err => { result := err, attemptedAction := false, captureCall := none }
  | none =>
    match env.actionError with
    | none =>
      { result := mkResult ("Element '" ++ selector ++ "' reached state '"
            ++ desiredState.name ++ "'.") false,
        attemptedAction := true, captureCall := none }
    | some msg =>
      let screenshotPath := takeScreenshotOnError env.shot s "waitForSelector-error"
        (some selector)
      let errorMessage :=
        if strContains msg "Timeout" then
          "Timeout waiting for element '" ++ selector ++ "' to reach state '"
            ++ desiredState.name ++ "' within " ++ toString timeout ++ "ms."
        else msg
      { result := mkResult ("Error waiting for selector '" ++ selector ++ "': "
            ++ errorMessage ++ shotSuffix screenshotPath) true,
        attemptedAction := true, captureCall := some ("waitForSelector-error", some selector) }

/-- Tool: waitForNavigation (src/tools/waitsAndInfo.ts); `env.strValue` is the
post-navigation `page.url()`. -/
def waitForNavigation (env : ActionEnv) (s : PlaywrightState) (timeout : Nat) : CommandTrace :=
  match checkPageAvailable s with
  | some err => { result := err, attemptedAction := false, captureCall := none }
  | none =>
    match env.actionError with
    | none =>
      { result := mkResult ("Navigation completed. New URL: " ++ env.strValue) false,
        attemptedAction := true, captureCall := none }
    | some msg =>
      let screenshotPath := takeScreenshotOnError env.shot s "waitForNavigation-error"
        (some "page")
      let errorMessage :=
        if strContains msg "Timeout" then
          "Timeout waiting for navigation within " ++ toString timeout ++ "ms."
        else msg
      { result := mkResult ("Error waiting for navigation: " ++ errorMessage
            ++ shotSuffix screenshotPath) true,
        attemptedAction := true, captureCall := some ("waitForNavigation-error", some "page") }

/-- Tool: waitForTimeout (src/tools/waitsAndInfo.ts); its catch block performs
no evidence capture. -/
def waitForTimeout (env : ActionEnv) (s : PlaywrightState) (milliseconds : Nat) : CommandTrace :=
  match checkPageAvailable s with
  | some err => { result := err, attemptedAction := false, captureCall := none }
  | none =>
    match env.actionError with
    | none =>
      { result := mkResult ("Waited for " ++ toString milliseconds ++ "ms.") false,
        attemptedAction := true, captureCall := none }
    | some msg =>
      { result := mkResult ("Error during waitForTimeout: " ++ msg) true,
        attemptedAction := true, captureCall := none }

/-- Tool: getCurrentURL (src/tools/waitsAndInfo.ts); its catch block performs
no evidence capture. -/
def getCurrentURL (env : ActionEnv) (s : PlaywrightState) : CommandTrace :=
  match checkPageAvailable s with
  | some err => { result := err, attemptedAction := false, captureCall := none }
  | none =>
    match env.actionError with
    | none =>
      { result := mkResult (env.strValue) false,
        attemptedAction := true, captureCall := none }
    | some msg =>
      { result := mkResult ("Error getting current URL: " ++ msg) true,
        attemptedAction := true, captureCall := none }

/-- Tool: getCurrentTitle (src/tools/waitsAndInfo.ts); its catch block
performs no evidence capture. -/
def getCurrentTitle (env : ActionEnv) (s : PlaywrightState) : CommandTrace :=
  match checkPageAvailable s with
  | some err => { result := err, attemptedAction := false, captureCall := none }
  | none =>
    match env.actionError with
    | none =>
      { result := mkResult (env.strValue) false,
        attemptedAction := true, captureCall := none }
    | some msg =>
      { result := mkResult ("Error getting current title: " ++ msg) true,
        attemptedAction := true, captureCall := none }

/-- The assert tool's assertion-type enumeration (src/tools/assertions.ts). -/
inductive AssertType where
  | visible
  | hidden
  | enabled
  | disabled
  | checked
  | unchecked
  | hasText
  | containsText
  | hasValue
  | hasAttribute
  | hasURL
  | hasTitle
deriving DecidableEq, Repr

/-- The string form of an AssertType as it appears in messages. -/
def AssertType.name : AssertType → String
  | .visible => "visible"
  | .hidden => "hidden"
  | .enabled => "enabled"
  | .disabled => "disabled"
  | .checked => "checked"
  | .unchecked => "unchecked"
  | .hasText => "hasText"
  | .containsText => "containsText"
  | .hasValue => "hasValue"
  | .hasAttribute => "hasAttribute"
  | .hasURL => "hasURL"
  | .hasTitle => "hasTitle"

/-- The error thrown by the assert tool's try block: the getLocator /
checkValue / checkAttribute precondition throws (in the order each switch
case performs them), or else the engine expectation's own failure. -/
def assertBodyError (ty : AssertType) (selector value attr : Option String)
    (engineError : Option String) : Option String :=
  let selReq := "Selector is required for assertion type '" ++ ty.name ++ "'."
  let valReq := "Value is required for assertion type '" ++ ty.name ++ "'."
  let attrReq := "Attribute name is required for assertion type '" ++ ty.name ++ "'."
  match ty with
  | .visible | .hidden | .enabled | .disabled | .checked | .unchecked =>
    if selector.isNone then some selReq else engineError
  | .hasText | .containsText | .hasValue =>
    if value.isNone then some valReq
    else if selector.isNone then some selReq
    else engineError
  | .hasAttribute =>
    if value.isNone then some valReq
    else if attr.isNone then some attrReq
    else if selector.isNone then some selReq
    else engineError
  | .hasURL | .hasTitle =>
    if value.isNone then some valReq else engineError

/-- Tool: assert (src/tools/assertions.ts). -/
def assertCmd (env : ActionEnv) (s : PlaywrightState) (ty : AssertType)
    (selector value attr : Option String) (timeout : Nat) : CommandTrace :=
  match checkPageAvailable s with
  | some err => { result := err, attemptedAction := false, captureCall := none }
  | none =>
    let _ := timeout
    match assertBodyError ty selector value attr env.actionError with
    | none =>
      let successMessage := "Assertion passed: " ++ ty.name
        ++ (match selector with
            | some sel => " for '" ++ sel ++ "'"
            | none => "")
        ++ (match value with
            | some v => " value \"" ++ v ++ "\""
            | none => "")
        ++ (match attr with
            | some a => " attr \"" ++ a ++ "\""
            | none => "")
      { result := mkResult (successMessage) false,
        attemptedAction := true, captureCall := none }
    | some errorMessage =>
      let screenshotPath := takeScreenshotOnError env.shot s
        ("assert-" ++ ty.name ++ "-failed") (some (selector.getD "page"))
      { result := mkResult ("Assertion failed: " ++ errorMessage
            ++ shotSuffix screenshotPath) true,
        attemptedAction := true, captureCall :=
          some ("assert-" ++ ty.name ++ "-failed", some (selector.getD "page")) }

/-! ## SessionLifecycle: launchBrowser / closeBrowser
(src/tools/browserLifecycle.ts) and the shutdown cleanup (src/server.ts) -/

/-- Collaborator outcomes visible to launchBrowser: the engine launch, context
creation, trace start and page creation each either return a handle or throw,
and the clock reading feeds the two generateFilePath calls. -/
structure LaunchEnv where
  engineResult : Except String Browser
  contextResult : Except String BrowserContext
  traceStartResult : Except String Unit
  pageResult : Except String Page
  nowIso : String
deriving Repr

/-- The catch-block envelope of launchBrowser. -/
def launchErrorEnvelope (msg : String) : ToolResult :=
  mkResult ("Error launching browser: " ++ msg) true

/-- Tool: launchBrowser (src/tools/browserLifecycle.ts). The catch block
resets every state field to null, so the mid-sequence partial assignments
never survive a failure; the sequence order (engine, video path, context,
trace path, trace start, page) follows the source. The `recordVideo`
argument is accepted but the body always records ("Always record video
now"). -/
def launchBrowser (env : LaunchEnv) (browserType : String) (headless : Bool)
    (launchArgs : List String) (recordVideo : Bool) (s : PlaywrightState) :
    PlaywrightState × ToolResult :=
  if s.browser.isSome then
    (s, mkResult "Error: Browser already launched. Use closeBrowser first." true)
  else
    match env.engineResult with
    | .error msg => (emptyState, launchErrorEnvelope msg)
    | .ok b =>
      let videoPath := generateFilePath VIDEO_DIR (some ("session-" ++ browserType))
        "webm" "video" env.nowIso
      match env.contextResult with
      | .error msg => (emptyState, launchErrorEnvelope msg)
      | .ok ctx =>
        let tracePath := generateFilePath TRACE_DIR (some ("session-" ++ browserType))
          "zip" "trace" env.nowIso
        match env.traceStartResult with
        | .error msg => (emptyState, launchErrorEnvelope msg)
        | .ok _ =>
          match env.pageResult with
          | .error msg => (emptyState, launchErrorEnvelope msg)
          | .ok pg =>
            ({ browser := some b, context := some ctx, page := some pg,
               tracePath := some tracePath, videoPath := some videoPath },
             mkResult (browserType ++ " launched successfully (headless: "
               ++ (if headless then "true" else "false") ++ ", args: "
               ++ String.intercalate ", " launchArgs ++ "). Video/Trace active.") false)

/-- Collaborator outcomes visible to closeBrowser and to the shutdown
cleanup: whether `context.tracing.stop` throws and whether `browser.close`
throws (each with the thrown message). -/
structure CloseEnv where
  traceStopError : Option String
  closeError : Option String
deriving DecidableEq, Repr

/-- What one closeBrowser invocation did: the state left behind, the
envelope, and which cleanup steps were actually invoked on the engine. -/
structure CloseOutcome where
  state : PlaywrightState
  result : ToolResult
  attemptedTraceStop : Bool
  attemptedClose : Bool
deriving DecidableEq, Repr

/-- Tool: closeBrowser, continued past the trace-stop step: the video-path
capture, the unconditional `browser.close` (throw caught, state reset, error
reported), the message assembly and the state reset on success. -/
def closeBrowserAfterTrace (env : CloseEnv) (s : PlaywrightState)
    (doTraceStop : Bool) : CloseOutcome :=
  let videoSavedPath := s.videoPath
  let traceSavedPath : Option String := if doTraceStop then s.tracePath else none
  match env.closeError with
  | some msg =>
    { state := emptyState,
      result := mkResult ("Error closing browser: " ++ msg) true,
      attemptedTraceStop := doTraceStop, attemptedClose := true }
  | none =>
    let message := "Browser closed successfully."
      ++ (match videoSavedPath with
          | some v => " Video saved near: " ++ v ++ "."
          | none => "")
      ++ (match traceSavedPath with
          | some t => " Trace saved to: " ++ t ++ "."
          | none => "")
    { state := emptyState, result := mkResult message false,
      attemptedTraceStop := doTraceStop, attemptedClose := true }

/-- Tool: closeBrowser (src/tools/browserLifecycle.ts). Trace stop and
browser close share ONE try block: a throw from `tracing.stop` (which is
invoked exactly when context and tracePath exist and the browser reports
connected) jumps to the catch without `browser.close` being invoked. -/
def closeBrowser (env : CloseEnv) (s : PlaywrightState) : CloseOutcome :=
  if s.browser.isNone then
    { state := s, result := mkResult "Info: No browser was open." false,
      attemptedTraceStop := false, attemptedClose := false }
  else
    match env.traceStopError with
    | some traceMsg =>
      if s.context.isSome && s.tracePath.isSome && browserConnected s then
        { state := emptyState,
          result := mkResult ("Error closing browser: " ++ traceMsg) true,
          attemptedTraceStop := true, attemptedClose := false }
      else
        closeBrowserAfterTrace env s
          (s.context.isSome && s.tracePath.isSome && browserConnected s)
    | none =>
      closeBrowserAfterTrace env s
        (s.context.isSome && s.tracePath.isSome && browserConnected s)

/-- What one shutdown-cleanup invocation did (the `cleanup` closure of
src/server.ts returns nothing; its observable effects are the state reset,
the engine calls it makes, and the trace path it logs). -/
structure CleanupOutcome where
  state : PlaywrightState
  attemptedTraceStop : Bool
  attemptedClose : Bool
  traceSavedPath : Option String
deriving DecidableEq, Repr

/-- The `cleanup` closure of src/server.ts (the shutdown path). Step 1 stops
tracing inside its OWN try/catch when context and tracePath exist and the
browser reports connected; step 2 closes the browser inside its own
try/catch when the browser reports connected; step 3 resets every state
field unconditionally. -/
def cleanupFn (env : CloseEnv) (s : PlaywrightState) : CleanupOutcome :=
  let doTraceStop := s.context.isSome && s.tracePath.isSome && browserConnected s
  let traceSavedPath : Option String :=
    if doTraceStop && env.traceStopError.isNone then s.tracePath else none
  { state := emptyState,
    attemptedTraceStop := doTraceStop,
    attemptedClose := browserConnected s,
    traceSavedPath := traceSavedPath }

/-- closeBrowser leaves the state untouched (idle early return) or fully
reset, on every path. -/
theorem closeBrowserAfterTrace_state (env : CloseEnv) (s : PlaywrightState) (d : Bool) :
    (closeBrowserAfterTrace env s d).state = emptyState := by
  unfold closeBrowserAfterTrace
  rcases env.closeError with _ | msg <;> simp

theorem closeBrowser_state_cases (env : CloseEnv) (s : PlaywrightState) :
    (closeBrowser env s).state = s ∨ (closeBrowser env s).state = emptyState := by
  unfold closeBrowser
  split
  · exact Or.inl rfl
  · right
    rcases env.traceStopError with _ | tmsg
    · exact closeBrowserAfterTrace_state env s _
    · by_cases hd : (s.context.isSome && s.tracePath.isSome && browserConnected s) = true <;>
        simp [hd, closeBrowserAfterTrace_state]

/-! ## Reachable session states

The tool callbacks for the delegated actions (click, fill, getElementText,
hover, pressKey, selectOption, assert, goto, the waits and the info tools)
never assign to any session field — only launchBrowser, closeBrowser and the
shutdown cleanup mutate `state` in the source — so the delegated actions are
identity steps on the session state. -/

/-- One inbound command, with its collaborator environment. -/
inductive Op where
  | launch (env : LaunchEnv) (browserType : String) (headless : Bool)
      (launchArgs : List String) (recordVideo : Bool)
  | close (env : CloseEnv)
  | shutdownCleanup (env : CloseEnv)
  | gotoOp (env : ActionEnv) (url : String)
  | clickOp (env : ActionEnv) (selector : String)
  | fillOp (env : ActionEnv) (selector text : String)
  | getElementTextOp (env : ActionEnv) (selector : String)
  | hoverOp (env : ActionEnv) (selector : String)
  | pressKeyOp (env : ActionEnv) (key : String) (selector : Option String)
  | selectOptionOp (env : ActionEnv) (selector : String) (option : SelectOpt)
  | assertOp (env : ActionEnv) (ty : AssertType) (selector value attr : Option String)
      (timeout : Nat)
  | waitForSelectorOp (env : ActionEnv) (selector : String) (desiredState : WaitState)
      (timeout : Nat)
  | waitForNavigationOp (env : ActionEnv) (timeout : Nat)
  | waitForTimeoutOp (env : ActionEnv) (milliseconds : Nat)
  | getCurrentURLOp (env : ActionEnv)
  | getCurrentTitleOp (env : ActionEnv)

/-- The session state after processing one command. -/
def applyOp (op : Op) (s : PlaywrightState) : PlaywrightState :=
  match op with
  | .launch env bt hl la rv => (launchBrowser env bt hl la rv s).1
  | .close env => (closeBrowser env s).state
  | .shutdownCleanup env => (cleanupFn env s).state
  | _ => s

/-- States reachable from process start (all fields null) through any
sequence of commands. -/
inductive Reachable : PlaywrightState → Prop where
  | init : Reachable emptyState
  | step (op : Op) {s : PlaywrightState} : Reachable s → Reachable (applyOp op s)

/-- The containment invariant of the data model, together with the stronger
idle-coherence fact actually maintained by the code: a null browser means the
whole session record is null. -/
def SessionInv (s : PlaywrightState) : Prop :=
  (s.page.isSome → s.context.isSome) ∧
  (s.context.isSome → s.browser.isSome) ∧
  (s.browser = none → s = emptyState)

/-- The all-null state satisfies the invariant. -/
theorem sessionInv_empty : SessionInv emptyState :=
  ⟨fun h => by simp [emptyState] at h, fun h => by simp [emptyState] at h, fun _ => rfl⟩

/-- Every reachable session state satisfies the containment invariant. -/
theorem reachable_sessionInv {s : PlaywrightState} (h : Reachable s) : SessionInv s := by
  induction h with
  | init => exact sessionInv_empty
  | step op hs ih =>
    cases op with
    | launch env bt hl la rv =>
      show SessionInv (launchBrowser env bt hl la rv _).1
      unfold launchBrowser
      split
      · exact ih
      · rcases env.engineResult with msg | b <;>
          rcases env.contextResult with msg2 | ctx <;>
          rcases env.traceStartResult with msg3 | u <;>
          rcases env.pageResult with msg4 | pg <;>
          simp [SessionInv, emptyState]
    | close env =>
      show SessionInv (closeBrowser env _).state
      rcases closeBrowser_state_cases env _ with h | h <;> rw [h]
      · exact ih
      · exact sessionInv_empty
    | shutdownCleanup env =>
      exact sessionInv_empty
    | gotoOp env url => exact ih
    | clickOp env sel => exact ih
    | fillOp env sel text => exact ih
    | getElementTextOp env sel => exact ih
    | hoverOp env sel => exact ih
    | pressKeyOp env key sel => exact ih
    | selectOptionOp env sel opt => exact ih
    | assertOp env ty sel v a t => exact ih
    | waitForSelectorOp env sel st t => exact ih
    | waitForNavigationOp env t => exact ih
    | waitForTimeoutOp env ms => exact ih
    | getCurrentURLOp env => exact ih
    | getCurrentTitleOp env => exact ih

/-- Claim C10: for every directory, base name (including unsafe ones such as
a/b:c*d), extension and prefix, generateFilePath joins the directory with a
file name whose base-name portion contains only letters, digits, underscore,
hyphen and period — in particular no path separator. -/
theorem generateFilePath_base_sanitized (dir : String) (baseName : Option String)
    (extension pfx nowIso : String) :
    generateFilePath dir baseName extension pfx nowIso
      = pathJoin dir (sanitizedBaseNameOf baseName pfx nowIso ++ "." ++ extension)
    ∧ (sanitizedBaseNameOf baseName pfx nowIso).data.all isSafeChar = true :=
  ⟨rfl, sanitizedBaseNameOf_all_safe baseName pfx nowIso⟩

/-! ## Concrete fixtures used by counterexamples and witnesses -/

/-- A connected engine handle. -/
def browser0 : Browser := { id := 0, connected := true }

/-- A fully-populated Active session with a connected engine. -/
def activeState : PlaywrightState :=
  { browser := some browser0, context := some { id := 0 }, page := some { id := 0 },
    tracePath := some "traces/session-chromium.zip",
    videoPath := some "videos/session-chromium.webm" }

/-- A screenshot environment where the capture succeeds. -/
def shotEnv0 : ShotEnv := { nowIso := "2025-01-01T00-00-00-000Z", screenshotError := none }

/-- An action environment whose delegated engine call throws "boom". -/
def actionFailEnv : ActionEnv :=
  { actionError := some "boom", textValue := none, strValue := "",
    statusValue := none, shot := shotEnv0 }

/-- A close environment where every engine call succeeds. -/
def closeEnvOk : CloseEnv := { traceStopError := none, closeError := none }

/-- A close environment where `tracing.stop` throws. -/
def closeEnvTraceFail : CloseEnv :=
  { traceStopError := some "trace stop failed", closeError := none }

/-- A launch environment where every engine call succeeds. -/
def launchEnvOk : LaunchEnv :=
  { engineResult := .ok browser0, contextResult := .ok { id := 0 },
    traceStartResult := .ok (), pageResult := .ok { id := 0 },
    nowIso := "2025-01-01T00:00:00.000Z" }

/-- A launch environment where the engine launch itself throws. -/
def launchEnvEngineFail : LaunchEnv :=
  { engineResult := .error "engine failed", contextResult := .ok { id := 0 },
    traceStartResult := .ok (), pageResult := .ok { id := 0 },
    nowIso := "2025-01-01T00:00:00.000Z" }

/-- Whether an external call threw. -/
def threw {α : Type} : Except String α → Bool
  | .error _ => true
  | .ok _ => false

/-! ## Claim theorems -/

/-- An Active session at the instant of the guard check: the page exists and
the engine reports itself connected. -/
def ActiveSession (s : PlaywrightState) : Prop :=
  s.page.isSome = true ∧ browserConnected s = true

/-- closeBrowser on a non-null browser always ends with every field reset. -/
theorem closeBrowser_state_reset (env : CloseEnv) (s : PlaywrightState)
    (hb : s.browser.isNone = false) : (closeBrowser env s).state = emptyState := by
  unfold closeBrowser
  rw [if_neg (by simp [hb])]
  rcases env.traceStopError with _ | tmsg
  · exact closeBrowserAfterTrace_state env s _
  · by_cases hd : (s.context.isSome && s.tracePath.isSome && browserConnected s) = true <;>
      simp [hd, closeBrowserAfterTrace_state]

/-- Claim C4: for every reachable session state (every state the singleton
`state` record can actually occupy), any closeBrowser or shutdown-cleanup
invocation returns with all session fields null, whether the cleanup steps
succeeded, failed or were skipped. -/
theorem close_shutdown_resets_state {s : PlaywrightState} (h : Reachable s)
    (env : CloseEnv) :
    (closeBrowser env s).state = emptyState ∧ (cleanupFn env s).state = emptyState := by
  constructor
  · by_cases hb : s.browser.isNone = true
    · have hs : s = emptyState :=
        (reachable_sessionInv h).2.2 (Option.isNone_iff_eq_none.mp hb)
      rw [hs]
      rfl
    · exact closeBrowser_state_reset env s (Bool.eq_false_iff.mpr hb)
  · rfl

/-- Witness for C4 at the concrete reachable Active state produced by a
successful launch. -/
theorem close_shutdown_resets_state_witness :
    (closeBrowser closeEnvOk
      (applyOp (Op.launch launchEnvOk "chromium" true ["--no-sandbox"] true)
        emptyState)).state = emptyState :=
  (close_shutdown_resets_state
    (Reachable.step (Op.launch launchEnvOk "chromium" true ["--no-sandbox"] true)
      Reachable.init) closeEnvOk).1

/-- Claim C5: launchBrowser invoked while a session is Active returns the
AlreadyActive error envelope and the state value it was given, bit-for-bit
unchanged in every field. -/
theorem launch_while_active_no_state_change (env : LaunchEnv) (browserType : String)
    (headless : Bool) (launchArgs : List String) (recordVideo : Bool)
    (s : PlaywrightState) (h : s.browser.isSome = true) :
    launchBrowser env browserType headless launchArgs recordVideo s
      = (s, mkResult "Error: Browser already launched. Use closeBrowser first." true) := by
  unfold launchBrowser
  rw [if_pos h]

/-- Witness for C5 at the concrete Active state. -/
theorem launch_while_active_no_state_change_witness :
    launchBrowser launchEnvOk "firefox" false [] true activeState
      = (activeState,
         mkResult "Error: Browser already launched. Use closeBrowser first." true) :=
  launch_while_active_no_state_change launchEnvOk "firefox" false [] true activeState rfl

/-- Claim C6: if any fallible step of the launch sequence (engine start,
context creation, trace start, page creation) throws, launchBrowser resets
every session field to null and returns the LaunchFailed-style error
envelope; it never returns a partially-populated session. -/
theorem launch_failure_rolls_back (env : LaunchEnv) (browserType : String)
    (headless : Bool) (launchArgs : List String) (recordVideo : Bool)
    (s : PlaywrightState) (hidle : s.browser = none)
    (hfail : threw env.engineResult = true ∨ threw env.contextResult = true ∨
      threw env.traceStartResult = true ∨ threw env.pageResult = true) :
    (launchBrowser env browserType headless launchArgs recordVideo s).1 = emptyState
    ∧ (launchBrowser env browserType headless launchArgs recordVideo s).2.isError = true := by
  unfold launchBrowser
  rw [if_neg (by simp [hidle])]
  rcases he : env.engineResult with msg | b <;>
    rcases hc : env.contextResult with msg2 | ctx <;>
    rcases ht : env.traceStartResult with msg3 | u <;>
    rcases hp : env.pageResult with msg4 | pg <;>
    simp_all [launchErrorEnvelope, mkResult, threw]

/-- Witness for C6: engine start throws on an Idle session. -/
theorem launch_failure_rolls_back_witness :
    (launchBrowser launchEnvEngineFail "chromium" true [] true emptyState).1 = emptyState
    ∧ (launchBrowser launchEnvEngineFail "chromium" true [] true emptyState).2.isError
        = true :=
  launch_failure_rolls_back launchEnvEngineFail "chromium" true [] true emptyState rfl
    (Or.inl rfl)

/-- Claim C7: in every session state reachable through launch, close,
shutdown and the delegated actions, a non-null page implies a non-null
recording context, and a non-null context implies a non-null engine handle. -/
theorem containment_invariant_reachable {s : PlaywrightState} (h : Reachable s) :
    (s.page.isSome = true → s.context.isSome = true)
    ∧ (s.context.isSome = true → s.browser.isSome = true) :=
  ⟨(reachable_sessionInv h).1, (reachable_sessionInv h).2.1⟩

/-- Witness for C7 at the concrete reachable state produced by a successful
launch. -/
theorem containment_invariant_reachable_witness :
    ((applyOp (Op.launch launchEnvOk "chromium" true ["--no-sandbox"] true)
        emptyState).page.isSome = true →
      (applyOp (Op.launch launchEnvOk "chromium" true ["--no-sandbox"] true)
        emptyState).context.isSome = true)
    ∧ ((applyOp (Op.launch launchEnvOk "chromium" true ["--no-sandbox"] true)
        emptyState).context.isSome = true →
      (applyOp (Op.launch launchEnvOk "chromium" true ["--no-sandbox"] true)
        emptyState).browser.isSome = true) :=
  containment_invariant_reachable
    (Reachable.step (Op.launch launchEnvOk "chromium" true ["--no-sandbox"] true)
      Reachable.init)

/-- The session state after a sequence of closeBrowser invocations. -/
def closeSeq : List CloseEnv → PlaywrightState → PlaywrightState
  | [], s => s
  | e :: es, s => closeSeq es (closeBrowser e s).state

/-- closeBrowser on the all-null state early-returns without touching it. -/
theorem closeBrowser_idle (e : CloseEnv) :
    closeBrowser e emptyState
      = { state := emptyState, result := mkResult "Info: No browser was open." false,
          attemptedTraceStop := false, attemptedClose := false } := rfl

/-- Any sequence of closes starting Idle stays Idle. -/
theorem closeSeq_idle (envs : List CloseEnv) : closeSeq envs emptyState = emptyState := by
  induction envs with
  | nil => rfl
  | cons e es ih =>
    show closeSeq es (closeBrowser e emptyState).state = emptyState
    rw [closeBrowser_idle e]
    exact ih

/-- Claim C8: starting from the Idle (all-null) session, every invocation in
any sequence of closeBrowser calls returns the trivial informational
"nothing to close" success (no error flag) and leaves the session all-null. -/
theorem close_idempotent_on_idle (envs : List CloseEnv) (e : CloseEnv) :
    closeSeq envs emptyState = emptyState
    ∧ (closeBrowser e (closeSeq envs emptyState)).result
        = mkResult "Info: No browser was open." false
    ∧ (closeBrowser e (closeSeq envs emptyState)).state = emptyState := by
  refine ⟨closeSeq_idle envs, ?_, ?_⟩ <;> rw [closeSeq_idle envs, closeBrowser_idle e]

/-- Claim C9: takeScreenshotOnError never lets an exception escape to its
caller (its outcome is always a normal return); it returns null when the
page is null or the engine is disconnected, and when the capture attempt
itself throws the failure is swallowed and null is returned, leaving the
original action failure undisturbed. -/
theorem takeScreenshotOnError_never_throws (env : ShotEnv) (s : PlaywrightState)
    (errorType : String) (details : Option String) :
    (∃ v, takeScreenshotOnErrorE env s errorType details = .ok v)
    ∧ ((s.page = none ∨ browserConnected s = false) →
        takeScreenshotOnErrorE env s errorType details = .ok none)
    ∧ (env.screenshotError.isSome = true →
        takeScreenshotOnErrorE env s errorType details = .ok none) := by
  unfold takeScreenshotOnErrorE
  by_cases hg : (s.page.isNone || !browserConnected s) = true
  · rw [if_pos hg]
    exact ⟨⟨none, rfl⟩, fun _ => rfl, fun _ => rfl⟩
  · rw [if_neg hg]
    rcases he : env.screenshotError with _ | msg
    · refine ⟨⟨_, rfl⟩, ?_, ?_⟩
      · intro hcase
        exfalso
        apply hg
        rcases hcase with hp | hp <;> simp [hp]
      · intro hsome
        simp at hsome
    · refine ⟨⟨none, rfl⟩, ?_, fun _ => rfl⟩
      intro hcase
      exfalso
      apply hg
      rcases hcase with hp | hp <;> simp [hp]

/-- Witness for C9: a state whose page is null, and independently a capture
attempt that throws on the Active state, both yield a normal null return. -/
theorem takeScreenshotOnError_never_throws_witness :
    takeScreenshotOnErrorE shotEnv0 emptyState "click-error" (some "#btn") = .ok none
    ∧ takeScreenshotOnErrorE
        { nowIso := "2025-01-01T00-00-00-000Z", screenshotError := some "timeout" }
        activeState "click-error" (some "#btn") = .ok none :=
  ⟨(takeScreenshotOnError_never_throws shotEnv0 emptyState "click-error"
      (some "#btn")).2.1 (Or.inl rfl),
   (takeScreenshotOnError_never_throws
      { nowIso := "2025-01-01T00-00-00-000Z", screenshotError := some "timeout" }
      activeState "click-error" (some "#btn")).2.2 rfl⟩

/-- Counterexample to claim C1 as stated: on the fully-populated Active
session with a connected engine, a failure thrown by the trace-stop step of
the closeBrowser command prevents the browser-close step from being
attempted (the two steps share one try block). -/
theorem closeBrowser_traceStop_aborts_close_cex :
    (closeBrowser closeEnvTraceFail activeState).attemptedTraceStop = true
    ∧ (closeBrowser closeEnvTraceFail activeState).attemptedClose = false
    ∧ (closeBrowser closeEnvTraceFail activeState).result.isError = true :=
  ⟨rfl, rfl, rfl⟩

/-- Claim C1 (amended): in the shutdown cleanup path the steps are
independently fault-tolerant — the browser-close step is attempted exactly
when the engine reports connected, regardless of any trace-stop failure, and
the unconditional reset always runs — whereas in the closeBrowser command a
trace-stop failure aborts the browser-close attempt (the session is still
fully reset and an error envelope returned). -/
theorem cleanup_close_steps_fault_tolerance (env : CloseEnv) (s : PlaywrightState) :
    (cleanupFn env s).attemptedClose = browserConnected s
    ∧ (cleanupFn env s).state = emptyState
    ∧ (env.traceStopError.isSome = true →
        (s.context.isSome && s.tracePath.isSome && browserConnected s) = true →
        (closeBrowser env s).attemptedClose = false
        ∧ (closeBrowser env s).state = emptyState
        ∧ (closeBrowser env s).result.isError = true) := by
  refine ⟨rfl, rfl, ?_⟩
  intro htrace hcond
  have hb : s.browser.isNone = false := by
    rcases hcb : s.browser with _ | b
    · simp [browserConnected, hcb] at hcond
    · simp [hcb]
  unfold closeBrowser
  rw [if_neg (by simp [hb])]
  revert htrace
  rcases env.traceStopError with _ | tmsg
  · intro htrace
    simp at htrace
  · intro _
    simp [hcond, mkResult]

/-- Witness for the C1 amendment at the concrete Active state with a failing
trace stop: cleanup still attempts the close, closeBrowser does not. -/
theorem cleanup_close_steps_fault_tolerance_witness :
    (cleanupFn closeEnvTraceFail activeState).attemptedClose = true
    ∧ (closeBrowser closeEnvTraceFail activeState).attemptedClose = false := by
  have h := cleanup_close_steps_fault_tolerance closeEnvTraceFail activeState
  exact ⟨h.1, (h.2.2 rfl rfl).1⟩

/-- A tool invocation that captured evidence correctly for a failure: the
takeScreenshotOnError call carries the expected category and detail, and
whenever a screenshot path came back it is appended to the human-readable
failure message. -/
def capturesOn (t : CommandTrace) (env : ActionEnv) (s : PlaywrightState)
    (cat : String) (det : Option String) : Prop :=
  t.captureCall = some (cat, det)
  ∧ ∀ p, takeScreenshotOnError env.shot s cat det = some p →
      ∃ pre, t.result.text = pre ++ (" Screenshot saved to: " ++ p)

/-- Counterexample to claim C2 as stated: goto is a command of the command
surface, its delegated engine action fails while the session is Active, the
failure envelope is returned — but no failure-evidence capture is invoked. -/
theorem goto_failure_skips_evidence_capture_cex :
    (goto actionFailEnv activeState "https://example.com").result.isError = true
    ∧ (goto actionFailEnv activeState "https://example.com").captureCall = none :=
  ⟨rfl, rfl⟩

/-- Claim C2 (amended): for click, fill, getElementText, hover, pressKey,
selectOption, assert, waitForSelector and waitForNavigation, a delegated
failure while Active invokes takeScreenshotOnError with the category derived
from the command name and the detail derived from the command subject, and a
returned screenshot path is folded into the failure message; goto,
waitForTimeout, getCurrentURL and getCurrentTitle report their failures
without invoking evidence capture. -/
theorem evidence_capture_on_failure_amended :
    (∀ env s sel msg, ActiveSession s → env.actionError = some msg →
      capturesOn (click env s sel) env s "click-error" (some sel))
    ∧ (∀ env s sel txt msg, ActiveSession s → env.actionError = some msg →
      capturesOn (fill env s sel txt) env s "fill-error" (some sel))
    ∧ (∀ env s sel msg, ActiveSession s → env.actionError = some msg →
      capturesOn (getElementText env s sel) env s "getText-error" (some sel))
    ∧ (∀ env s sel msg, ActiveSession s → env.actionError = some msg →
      capturesOn (hover env s sel) env s "hover-error" (some sel))
    ∧ (∀ env s key sel msg, ActiveSession s → env.actionError = some msg →
      capturesOn (pressKey env s key sel) env s "pressKey-error" (some (sel.getD "page")))
    ∧ (∀ env s sel opt msg, ActiveSession s → env.actionError = some msg →
      capturesOn (selectOption env s sel opt) env s "selectOption-error" (some sel))
    ∧ (∀ env s ty sel v a t m, ActiveSession s →
        assertBodyError ty sel v a env.actionError = some m →
      capturesOn (assertCmd env s ty sel v a t) env s
        ("assert-" ++ ty.name ++ "-failed") (some (sel.getD "page")))
    ∧ (∀ env s sel st t msg, ActiveSession s → env.actionError = some msg →
      capturesOn (waitForSelector env s sel st t) env s "waitForSelector-error" (some sel))
    ∧ (∀ env s t msg, ActiveSession s → env.actionError = some msg →
      capturesOn (waitForNavigation env s t) env s "waitForNavigation-error" (some "page"))
    ∧ (∀ env s url msg, ActiveSession s → env.actionError = some msg →
      (goto env s url).captureCall = none)
    ∧ (∀ env s ms msg, ActiveSession s → env.actionError = some msg →
      (waitForTimeout env s ms).captureCall = none)
    ∧ (∀ env s msg, ActiveSession s → env.actionError = some msg →
      (getCurrentURL env s).captureCall = none)
    ∧ (∀ env s msg, ActiveSession s → env.actionError = some msg →
      (getCurrentTitle env s).captureCall = none) := by
  refine ⟨?_, ?_, ?_, ?_, ?_, ?_, ?_, ?_, ?_, ?_, ?_, ?_, ?_⟩
  · intro env s sel msg hA hE
    have hg := (checkPageAvailable_eq_none_iff s).mpr hA
    refine ⟨by simp [click, hg, hE], ?_⟩
    intro p hp
    simp only [click, hg, hE, hp, shotSuffix]
    exact ⟨_, rfl⟩
  · intro env s sel txt msg hA hE
    have hg := (checkPageAvailable_eq_none_iff s).mpr hA
    refine ⟨by simp [fill, hg, hE], ?_⟩
    intro p hp
    simp only [fill, hg, hE, hp, shotSuffix]
    exact ⟨_, rfl⟩
  · intro env s sel msg hA hE
    have hg := (checkPageAvailable_eq_none_iff s).mpr hA
    refine ⟨by simp [getElementText, hg, hE], ?_⟩
    intro p hp
    simp only [getElementText, hg, hE, hp, shotSuffix]
    exact ⟨_, rfl⟩
  · intro env s sel msg hA hE
    have hg := (checkPageAvailable_eq_none_iff s).mpr hA
    refine ⟨by simp [hover, hg, hE], ?_⟩
    intro p hp
    simp only [hover, hg, hE, hp, shotSuffix]
    exact ⟨_, rfl⟩
  · intro env s key sel msg hA hE
    have hg := (checkPageAvailable_eq_none_iff s).mpr hA
    refine ⟨by simp [pressKey, hg, hE], ?_⟩
    intro p hp
    simp only [pressKey, hg, hE, hp, shotSuffix]
    exact ⟨_, rfl⟩
  · intro env s sel opt msg hA hE
    have hg := (checkPageAvailable_eq_none_iff s).mpr hA
    refine ⟨by simp [selectOption, hg, hE], ?_⟩
    intro p hp
    simp only [selectOption, hg, hE, hp, shotSuffix]
    exact ⟨_, rfl⟩
  · intro env s ty sel v a t m hA hE
    have hg := (checkPageAvailable_eq_none_iff s).mpr hA
    refine ⟨by simp [assertCmd, hg, hE], ?_⟩
    intro p hp
    simp only [assertCmd, hg, hE, hp, shotSuffix]
    exact ⟨_, rfl⟩
  · intro env s sel st t msg hA hE
    have hg := (checkPageAvailable_eq_none_iff s).mpr hA
    refine ⟨by simp [waitForSelector, hg, hE], ?_⟩
    intro p hp
    simp only [waitForSelector, hg, hE, hp, shotSuffix]
    exact ⟨_, rfl⟩
  · intro env s t msg hA hE
    have hg := (checkPageAvailable_eq_none_iff s).mpr hA
    refine ⟨by simp [waitForNavigation, hg, hE], ?_⟩
    intro p hp
    simp only [waitForNavigation, hg, hE, hp, shotSuffix]
    exact ⟨_, rfl⟩
  · intro env s url msg hA hE
    have hcond : (s.page.isNone || !browserConnected s) = false := by
      simp [hA.1, hA.2]
    simp [goto, hcond, hE]
  · intro env s ms msg hA hE
    have hg := (checkPageAvailable_eq_none_iff s).mpr hA
    simp [waitForTimeout, hg, hE]
  · intro env s msg hA hE
    have hg := (checkPageAvailable_eq_none_iff s).mpr hA
    simp [getCurrentURL, hg, hE]
  · intro env s msg hA hE
    have hg := (checkPageAvailable_eq_none_iff s).mpr hA
    simp [getCurrentTitle, hg, hE]

/-- Witness for the C2 amendment: the failing click on the Active session
captures evidence, the failing goto does not. -/
theorem evidence_capture_on_failure_amended_witness :
    (click actionFailEnv activeState "#btn").captureCall
      = some ("click-error", some "#btn")
    ∧ (goto actionFailEnv activeState "https://example.org").captureCall = none := by
  have h := evidence_capture_on_failure_amended
  exact ⟨(h.1 actionFailEnv activeState "#btn" "boom" ⟨rfl, rfl⟩ rfl).1,
    h.2.2.2.2.2.2.2.2.2.1 actionFailEnv activeState "https://example.org" "boom"
      ⟨rfl, rfl⟩ rfl⟩

/-- Counterexample to claim C3 as stated: closeBrowser is a command other
than launch, invoked here with a null page (Idle session), yet it returns a
non-error informational envelope instead of a NoActiveSession failure with
isError set. -/
theorem closeBrowser_idle_no_error_envelope_cex :
    emptyState.page = none
    ∧ (closeBrowser closeEnvOk emptyState).result.isError = false
    ∧ (closeBrowser closeEnvOk emptyState).result.text = "Info: No browser was open." :=
  ⟨rfl, rfl, rfl⟩

/-- Claim C3 (amended): for every command other than launchBrowser and
closeBrowser, a null page or a disconnected engine at dispatch time yields
the guard's uniform error envelope (isError set) immediately, with no action
delegated and no evidence captured; goto uses its own wording of the same
no-active-session error. -/
theorem guard_noActiveSession_amended (s : PlaywrightState)
    (h : s.page = none ∨ browserConnected s = false) :
    (∀ env sel, click env s sel
      = { result := noPageEnvelope, attemptedAction := false, captureCall := none })
    ∧ (∀ env sel txt, fill env s sel txt
      = { result := noPageEnvelope, attemptedAction := false, captureCall := none })
    ∧ (∀ env sel, getElementText env s sel
      = { result := noPageEnvelope, attemptedAction := false, captureCall := none })
    ∧ (∀ env sel, hover env s sel
      = { result := noPageEnvelope, attemptedAction := false, captureCall := none })
    ∧ (∀ env key sel, pressKey env s key sel
      = { result := noPageEnvelope, attemptedAction := false, captureCall := none })
    ∧ (∀ env sel opt, selectOption env s sel opt
      = { result := noPageEnvelope, attemptedAction := false, captureCall := none })
    ∧ (∀ env ty sel v a t, assertCmd env s ty sel v a t
      = { result := noPageEnvelope, attemptedAction := false, captureCall := none })
    ∧ (∀ env sel st t, waitForSelector env s sel st t
      = { result := noPageEnvelope, attemptedAction := false, captureCall := none })
    ∧ (∀ env t, waitForNavigation env s t
      = { result := noPageEnvelope, attemptedAction := false, captureCall := none })
    ∧ (∀ env ms, waitForTimeout env s ms
      = { result := noPageEnvelope, attemptedAction := false, captureCall := none })
    ∧ (∀ env, getCurrentURL env s
      = { result := noPageEnvelope, attemptedAction := false, captureCall := none })
    ∧ (∀ env, getCurrentTitle env s
      = { result := noPageEnvelope, attemptedAction := false, captureCall := none })
    ∧ (∀ env url, goto env s url
      = { result := mkResult
            "Error: No active page or browser. Use launchBrowser first." true,
          attemptedAction := false, captureCall := none }) := by
  have hg : checkPageAvailable s = some noPageEnvelope := checkPageAvailable_fails s h
  have hcond : (s.page.isNone || !browserConnected s) = true := by
    rcases h with h | h <;> simp [h]
  refine ⟨fun env sel => ?_, fun env sel txt => ?_, fun env sel => ?_, fun env sel => ?_,
    fun env key sel => ?_, fun env sel opt => ?_, fun env ty sel v a t => ?_,
    fun env sel st t => ?_, fun env t => ?_, fun env ms => ?_, fun env => ?_,
    fun env => ?_, fun env url => ?_⟩
  · simp [click, hg]
  · simp [fill, hg]
  · simp [getElementText, hg]
  · simp [hover, hg]
  · simp [pressKey, hg]
  · simp [selectOption, hg]
  · simp [assertCmd, hg]
  · simp [waitForSelector, hg]
  · simp [waitForNavigation, hg]
  · simp [waitForTimeout, hg]
  · simp [getCurrentURL, hg]
  · simp [getCurrentTitle, hg]
  · simp [goto, hcond]

/-- Witness for the C3 amendment: click dispatched on the Idle session
returns the uniform guard envelope without delegating. -/
theorem guard_noActiveSession_amended_witness :
    click actionFailEnv emptyState "#missing"
      = { result := noPageEnvelope, attemptedAction := false, captureCall := none } :=
  (guard_noActiveSession_amended emptyState (Or.inl rfl)).1 actionFailEnv "#missing"

end PwServer
